import Mathlib

/-!
Verification of the lead-generation pipeline (`leadgen.py`, `lead_filter.py`)
against its natural-language specification.

The Python code is shallowly embedded: pure functions become Lean functions,
external effects (HTTP fetches, HTML parsing by BeautifulSoup, regex
extraction, the file system) become explicit oracle parameters or `Option` /
`Except`-valued inputs, and the module-level mutable identifier set becomes
explicit state passing.  Python `None` becomes `Option.none`; a Python value
that may be `None` or a string becomes `Option String`; Python floats used
only for comparisons against decimal literals become `Rat`.
-/

set_option autoImplicit false

namespace Leadgen

/-! ### Lead Scorer (`score_lead`, leadgen.py lines 200-230)

The Python signature is
`score_lead(has_website, https, has_viewport, html_length, emails, has_cta, rating, user_ratings_total)`.
`html_length` is compared with `< 5000` inside `try/except` (a non-numeric
value raises and the `except` branch adds 3), so it is embedded as
`Option Int` with `none` standing for an unavailable/unparseable length.
`rating` is tested `rating is None or float(rating) < 4.5` inside
`try/except`, so it is `Option Rat` with `none` covering both `None` and an
unparseable value; `user_ratings_total` likewise is `Option Int`.
`emails` is a Python list whose truthiness is tested (`if not emails`). -/

def score_lead (has_website : Bool) (https : Bool) (has_viewport : Bool)
    (html_length : Option Int) (emails : List String) (has_cta : Bool)
    (rating : Option Rat) (user_ratings_total : Option Int) : Int :=
  if !has_website then
    10
  else
    let score : Int := 0
    let score := if !https then score + 5 else score
    let score := if !has_viewport then score + 3 else score
    let score := match html_length with
      | some l => if l < 5000 then score + 3 else score
      | none => score + 3
    let score := if emails.isEmpty then score + 2 else score
    let score := if !has_cta then score + 2 else score
    let score := match rating with
      | some r => if r < (9 / 2 : Rat) then score + 1 else score
      | none => score + 1
    let score := match user_ratings_total with
      | some u => if u < 15 then score + 1 else score
      | none => score + 1
    score

/-! Per-signal point functions, the spec's additive reading of the scorer.
These are the building blocks of the claims' statements, not of the
embedding: `score_lead` above is the code's sequential accumulation. -/

def httpsPts (https : Bool) : Int := if https then 0 else 5

def viewportPts (has_viewport : Bool) : Int := if has_viewport then 0 else 3

def lenPts : Option Int → Int
  | none => 3
  | some l => if l < 5000 then 3 else 0

def emailPts (emails : List String) : Int :=
  if emails.isEmpty then 2 else 0

def ctaPts (has_cta : Bool) : Int := if has_cta then 0 else 2

def ratingPts : Option Rat → Int
  | none => 1
  | some r => if r < (9 / 2 : Rat) then 1 else 0

def reviewPts : Option Int → Int
  | none => 1
  | some u => if u < 15 then 1 else 0

/-- The bad value of the page-length signal: unavailable or below 5000. -/
def badLen : Option Int → Bool
  | none => true
  | some l => decide (l < 5000)

/-- The bad value of the rating signal: missing/unparseable or below 4.5. -/
def badRating : Option Rat → Bool
  | none => true
  | some r => decide (r < (9 / 2 : Rat))

/-- The bad value of the review-count signal: missing/unparseable or below 15. -/
def badReviews : Option Int → Bool
  | none => true
  | some u => decide (u < 15)

theorem score_lead_true_eq (https has_viewport : Bool) (html_length : Option Int)
    (emails : List String) (has_cta : Bool) (rating : Option Rat)
    (user_ratings_total : Option Int) :
    score_lead true https has_viewport html_length emails has_cta rating user_ratings_total
      = httpsPts https + viewportPts has_viewport + lenPts html_length
        + emailPts emails + ctaPts has_cta + ratingPts rating
        + reviewPts user_ratings_total := by
  cases https <;> cases has_viewport <;> cases has_cta <;>
    rcases html_length with _ | l <;> rcases rating with _ | r <;>
    rcases user_ratings_total with _ | u <;>
    simp only [score_lead, httpsPts, viewportPts, lenPts, emailPts, ctaPts,
      ratingPts, reviewPts, Bool.not_true, Bool.not_false, if_true, if_false,
      Bool.false_eq_true, ite_false, ite_true] <;>
    split_ifs <;> ring

theorem httpsPts_bounds (b : Bool) : 0 ≤ httpsPts b ∧ httpsPts b ≤ 5 := by
  cases b <;> norm_num [httpsPts]

theorem viewportPts_bounds (b : Bool) : 0 ≤ viewportPts b ∧ viewportPts b ≤ 3 := by
  cases b <;> norm_num [viewportPts]

theorem ctaPts_bounds (b : Bool) : 0 ≤ ctaPts b ∧ ctaPts b ≤ 2 := by
  cases b <;> norm_num [ctaPts]

theorem lenPts_bounds (l : Option Int) : 0 ≤ lenPts l ∧ lenPts l ≤ 3 := by
  rcases l with _ | v
  · norm_num [lenPts]
  · simp only [lenPts]
    split_ifs <;> norm_num

theorem emailPts_bounds (e : List String) : 0 ≤ emailPts e ∧ emailPts e ≤ 2 := by
  simp only [emailPts]
  split_ifs <;> norm_num

theorem ratingPts_bounds (r : Option Rat) : 0 ≤ ratingPts r ∧ ratingPts r ≤ 1 := by
  rcases r with _ | v
  · norm_num [ratingPts]
  · simp only [ratingPts]
    split_ifs <;> norm_num

theorem reviewPts_bounds (u : Option Int) : 0 ≤ reviewPts u ∧ reviewPts u ≤ 1 := by
  rcases u with _ | v
  · norm_num [reviewPts]
  · simp only [reviewPts]
    split_ifs <;> norm_num

/-- C2: with no website the score is exactly 10 with no other contribution;
otherwise the score is the sum of +5 (not HTTPS), +3 (no viewport), +3 (short
or unavailable page length), +2 (no emails), +2 (no call-to-action), +1
(missing or low rating), +1 (missing or low review count); and the score
never exceeds 17. -/
theorem score_lead_spec :
    (∀ https v l e c r u, score_lead false https v l e c r u = 10)
    ∧ (∀ https v l e c r u, score_lead true https v l e c r u
        = httpsPts https + viewportPts v + lenPts l + emailPts e
          + ctaPts c + ratingPts r + reviewPts u)
    ∧ (∀ w https v l e c r u, score_lead w https v l e c r u ≤ 17) := by
  refine ⟨fun _ _ _ _ _ _ _ => rfl, score_lead_true_eq, ?_⟩
  intro w https v l e c r u
  cases w
  · have h0 : score_lead false https v l e c r u = 10 := rfl
    omega
  · rw [score_lead_true_eq]
    have h1 := httpsPts_bounds https
    have h2 := viewportPts_bounds v
    have h3 := lenPts_bounds l
    have h4 := emailPts_bounds e
    have h5 := ctaPts_bounds c
    have h6 := ratingPts_bounds r
    have h7 := reviewPts_bounds u
    linarith [h1.2, h2.2, h3.2, h4.2, h5.2, h6.2, h7.2]

/-- C3: on the spec's end-to-end input (website present, not HTTPS, no
viewport, page length 800, one email, no call-to-action, rating 3.0,
5 reviews) the computed score is exactly 15. -/
theorem score_lead_end_to_end :
    score_lead true false false (some 800) ["contact@example.com"] false
      (some 3) (some 5) = 15 := by
  norm_num [score_lead, List.isEmpty]

theorem badRating_five_good : badRating (some 5) = false := by
  simp only [badRating, decide_eq_false_iff_not, not_lt]
  norm_num

/-- C4: flipping any single signal of a with-website input from its good to
its bad value never decreases the score, and without a website the score is
exactly 10 regardless of every other argument. -/
theorem score_lead_monotone :
    (∀ v l e c r u, score_lead true true v l e c r u ≤ score_lead true false v l e c r u)
    ∧ (∀ h l e c r u, score_lead true h true l e c r u ≤ score_lead true h false l e c r u)
    ∧ (∀ h v e c r u lg lb, badLen lb = true → badLen lg = false →
        score_lead true h v lg e c r u ≤ score_lead true h v lb e c r u)
    ∧ (∀ h v l c r u e, score_lead true h v l e c r u ≤ score_lead true h v l [] c r u)
    ∧ (∀ h v l e r u, score_lead true h v l e true r u ≤ score_lead true h v l e false r u)
    ∧ (∀ h v l e c u rg rb, badRating rb = true → badRating rg = false →
        score_lead true h v l e c rg u ≤ score_lead true h v l e c rb u)
    ∧ (∀ h v l e c r ug ub, badReviews ub = true → badReviews ug = false →
        score_lead true h v l e c r ug ≤ score_lead true h v l e c r ub)
    ∧ (∀ h v l e c r u, score_lead false h v l e c r u = 10) := by
  have hlen3 : ∀ l, badLen l = true → lenPts l = 3 := by
    intro l hl
    rcases l with _ | v
    · rfl
    · simp only [badLen, decide_eq_true_eq] at hl
      simp only [lenPts, if_pos hl]
  have hlen0 : ∀ l, badLen l = false → lenPts l = 0 := by
    intro l hl
    rcases l with _ | v
    · simp [badLen] at hl
    · simp only [badLen, decide_eq_false_iff_not] at hl
      simp only [lenPts, if_neg hl]
  have hrat1 : ∀ r, badRating r = true → ratingPts r = 1 := by
    intro r hr
    rcases r with _ | v
    · rfl
    · simp only [badRating, decide_eq_true_eq] at hr
      simp only [ratingPts, if_pos hr]
  have hrat0 : ∀ r, badRating r = false → ratingPts r = 0 := by
    intro r hr
    rcases r with _ | v
    · simp [badRating] at hr
    · simp only [badRating, decide_eq_false_iff_not] at hr
      simp only [ratingPts, if_neg hr]
  have hrev1 : ∀ u, badReviews u = true → reviewPts u = 1 := by
    intro u hu
    rcases u with _ | v
    · rfl
    · simp only [badReviews, decide_eq_true_eq] at hu
      simp only [reviewPts, if_pos hu]
  have hrev0 : ∀ u, badReviews u = false → reviewPts u = 0 := by
    intro u hu
    rcases u with _ | v
    · simp [badReviews] at hu
    · simp only [badReviews, decide_eq_false_iff_not] at hu
      simp only [reviewPts, if_neg hu]
  refine ⟨?_, ?_, ?_, ?_, ?_, ?_, ?_, fun _ _ _ _ _ _ _ => rfl⟩
  · intro v l e c r u
    rw [score_lead_true_eq, score_lead_true_eq]
    have h1 : httpsPts true = 0 := rfl
    have h2 : httpsPts false = 5 := rfl
    linarith
  · intro h l e c r u
    rw [score_lead_true_eq, score_lead_true_eq]
    have h1 : viewportPts true = 0 := rfl
    have h2 : viewportPts false = 3 := rfl
    linarith
  · intro h v e c r u lg lb hb hg
    rw [score_lead_true_eq, score_lead_true_eq, hlen3 lb hb, hlen0 lg hg]
    linarith
  · intro h v l c r u e
    rw [score_lead_true_eq, score_lead_true_eq]
    have h1 := emailPts_bounds e
    have h2 : emailPts ([] : List String) = 2 := rfl
    linarith [h1.2]
  · intro h v l e r u
    rw [score_lead_true_eq, score_lead_true_eq]
    have h1 : ctaPts true = 0 := rfl
    have h2 : ctaPts false = 2 := rfl
    linarith
  · intro h v l e c u rg rb hb hg
    rw [score_lead_true_eq, score_lead_true_eq, hrat1 rb hb, hrat0 rg hg]
    linarith
  · intro h v l e c r ug ub hb hg
    rw [score_lead_true_eq, score_lead_true_eq, hrev1 ub hb, hrev0 ug hg]
    linarith

/-- C4 witness: concrete instances of the hypothesis-bearing monotonicity
conjuncts (page length 6000 vs unavailable, rating 5 vs missing, review
count 20 vs missing). -/
theorem score_lead_monotone_witness :
    (score_lead true true true (some 6000) ["a"] true (some 5) (some 20)
      ≤ score_lead true true true none ["a"] true (some 5) (some 20))
    ∧ (score_lead true true true (some 6000) ["a"] true (some 5) (some 20)
      ≤ score_lead true true true (some 6000) ["a"] true none (some 20))
    ∧ (score_lead true true true (some 6000) ["a"] true (some 5) (some 20)
      ≤ score_lead true true true (some 6000) ["a"] true (some 5) none) :=
  ⟨score_lead_monotone.2.2.1 true true ["a"] true (some 5) (some 20)
      (some 6000) none rfl (by decide),
   score_lead_monotone.2.2.2.2.2.1 true true (some 6000) ["a"] true (some 20)
      (some 5) none rfl badRating_five_good,
   score_lead_monotone.2.2.2.2.2.2.1 true true (some 6000) ["a"] true
      (some 5) (some 20) none rfl (by decide)⟩

/-! ### Contact Extractor (`analyze_website`, leadgen.py lines 124-197)

The HTTP fetch is an oracle `fetch : String → Except String String`
(failure message or response body), and the BeautifulSoup/regex parsing of a
fetched body is an oracle `parse : String → HtmlFacts` — both are external
collaborators per the spec.  URL normalization and the scheme test follow
the Python code: a protocol-relative `//…` URL gets `https:` prepended, a
URL whose `urlparse` scheme is empty gets `http://` prepended, and the
`https` flag is the normalized URL lower-cased starting with `https://`. -/

/-- Result of parsing a fetched HTML body (BeautifulSoup + regex extraction,
an external collaborator). -/
structure HtmlFacts where
  has_title : Bool
  has_viewport : Bool
  emails : List String
  phones : List String
  has_cta : Bool
deriving DecidableEq

/-- The `WebsiteAnalysis` record: the Python `result` dict of
`analyze_website`. -/
structure WebsiteAnalysis where
  emails : List String
  phones_website : List String
  https : Bool
  has_viewport : Bool
  html_length : Int
  has_title : Bool
  has_cta : Bool
  error : Option String
deriving DecidableEq

/-- The initial `result` dict of `analyze_website`: all fields default. -/
def defaultAnalysis : WebsiteAnalysis :=
  { emails := [], phones_website := [], https := false, has_viewport := false,
    html_length := 0, has_title := false, has_cta := false, error := none }

/-- Boolean prefix test on character lists (the primitive behind the
embedding's `startswith`). -/
def isPrefixOfChars : List Char → List Char → Bool
  | [], _ => true
  | _ :: _, [] => false
  | a :: as, b :: bs => a = b && isPrefixOfChars as bs

/-- ASCII lower-casing of one character. -/
def lowerChar (c : Char) : Char :=
  if c.isUpper then Char.ofNat (c.toNat + 32) else c

/-- `s.startswith(p)`. -/
def strStartsWith (s p : String) : Bool :=
  isPrefixOfChars p.toList s.toList

/-- `s.lower()` (ASCII, which covers the URL schemes compared against). -/
def strToLower (s : String) : String :=
  String.mk (s.toList.map lowerChar)

/-- Characters allowed in a URL scheme (`urllib.parse.scheme_chars`). -/
def schemeChar (c : Char) : Bool :=
  c.isAlphanum || c = '+' || c = '-' || c = '.'

/-- Whether `urlparse(url).scheme` is non-empty: there is a `:` at a
positive index, the first character is a letter, and everything before the
`:` is a scheme character (the `urlsplit` rule). -/
def hasScheme (url : String) : Bool :=
  match url.toList.findIdx? (fun c => c = ':') with
  | none => false
  | some 0 => false
  | some i =>
    (match url.toList.head? with
     | some c => c.isAlpha
     | none => false)
    && (url.toList.take i).all schemeChar

/-- URL normalization as in `analyze_website`: `https:` prepended to a
protocol-relative URL, then `http://` prepended when no scheme is present. -/
def normalize_url (url : String) : String :=
  let u1 := if strStartsWith url "//" then "https:" ++ url else url
  if hasScheme u1 then u1 else "http://" ++ u1

/-- The `https` field: the normalized URL, lower-cased, starts with
`https://`. -/
def uses_https (url : String) : Bool :=
  strStartsWith (strToLower (normalize_url url)) "https://"

/-- `analyze_website(url)` with the fetch and the HTML parsing as oracles. -/
def analyze_website (parse : String → HtmlFacts)
    (fetch : String → Except String String) (url : String) : WebsiteAnalysis :=
  if url = "" then defaultAnalysis
  else
    let nurl := normalize_url url
    let httpsFlag := strStartsWith (strToLower nurl) "https://"
    match fetch nurl with
    | Except.error e => { defaultAnalysis with https := httpsFlag, error := some e }
    | Except.ok html =>
      let facts := parse html
      { emails := facts.emails, phones_website := facts.phones,
        https := httpsFlag, has_viewport := facts.has_viewport,
        html_length := (html.length : Int), has_title := facts.has_title,
        has_cta := facts.has_cta, error := none }

/-- A parse oracle returning no signals, used in concrete evaluations. -/
def parseNone : String → HtmlFacts :=
  fun _ => { has_title := false, has_viewport := false, emails := [],
             phones := [], has_cta := false }

/-- A fetch oracle that always fails with message `timeout`. -/
def fetchTimeout : String → Except String String :=
  fun _ => Except.error "timeout"

/-- C5 counterexample: for the URL `https://example.com` with a failing
fetch, the returned analysis has `fetch_error` set but its `https` field is
`true`, not the default `false` — so not every other field is at its
default. -/
theorem analyze_website_failure_not_all_default :
    (analyze_website parseNone fetchTimeout "https://example.com").error
        = some "timeout"
    ∧ analyze_website parseNone fetchTimeout "https://example.com"
        ≠ { defaultAnalysis with error := some "timeout" } := by
  constructor
  · rfl
  · intro h
    have : (analyze_website parseNone fetchTimeout "https://example.com").https
        = ({ defaultAnalysis with error := some "timeout" } : WebsiteAnalysis).https :=
      congrArg WebsiteAnalysis.https h
    exact absurd this (by decide)

/-- C5 (amended): when the fetch of a non-empty URL fails, `analyze_website`
returns the failure message in `fetch_error`, the `https` flag derived from
the normalized URL's scheme, and every remaining field at its default; the
failure is not propagated. -/
theorem analyze_website_failure_spec (parse : String → HtmlFacts)
    (fetch : String → Except String String) (url msg : String)
    (hurl : url ≠ "") (hf : fetch (normalize_url url) = Except.error msg) :
    analyze_website parse fetch url
      = { defaultAnalysis with https := uses_https url, error := some msg } := by
  unfold analyze_website
  rw [if_neg hurl]
  simp only [hf, uses_https]

/-- C5 witness: the amended failure contract evaluated at the bare-host URL
`example.com` with a fetch that times out. -/
theorem analyze_website_failure_spec_witness :
    analyze_website parseNone fetchTimeout "example.com"
      = { defaultAnalysis with
            https := uses_https "example.com",
            error := some "timeout" } :=
  analyze_website_failure_spec parseNone fetchTimeout "example.com" "timeout"
    (by decide) rfl

/-! ### Configuration guard (leadgen.py lines 28, 337-348)

`GOOGLE_API_KEY = os.getenv("GOOGLE_API_KEY")` is `None` when the variable
is missing; `main` aborts only when `GOOGLE_API_KEY == "YOUR_GOOGLE_API_KEY"`
(and in Python `None == "YOUR_GOOGLE_API_KEY"` is `False`), otherwise it
proceeds to `get_places`, which issues network requests. -/

/-- The guard in `main`: `GOOGLE_API_KEY == "YOUR_GOOGLE_API_KEY"`.  The
credential read by `os.getenv` is `Option String`; comparing `None` with a
string is `False` in Python. -/
def api_key_guard_aborts (key : Option String) : Bool :=
  match key with
  | some s => s = "YOUR_GOOGLE_API_KEY"
  | none => false

/-- `main` reaches the network-issuing `get_places` call exactly when the
guard does not fire. -/
def main_runs_search (key : Option String) : Bool :=
  !api_key_guard_aborts key

/-- C6 (code bug): with the credential missing from the environment
(`os.getenv` returns `None`), the guard in `main` does not fire — it only
matches the literal placeholder string — so the program proceeds to issue
network requests instead of aborting. -/
theorem missing_api_key_not_fatal :
    api_key_guard_aborts none = false ∧ main_runs_search none = true := by
  exact ⟨rfl, rfl⟩

/-! ### Upstream Gateway pagination (`get_places`, leadgen.py lines 42-96)

The network is an oracle: for each keyword, a list of responses consumed in
order, one per issued request.  A response is either a request failure
(exception in `requests.get` / `r.json()`) or a page of raw results with an
optional `next_page_token`.  The Python loop: on failure `break` (only this
keyword's chain stops); otherwise merge the results into the `places`
mapping (first seen wins, falsy `place_id` skipped), then if a token is
present sleep the fixed delay and reissue, else `break`. -/

/-- A raw nearby-search result entry. -/
structure RawPlace where
  place_id : Option String
  name : Option String
  rating : Option Rat
  user_ratings_total : Option Int
  vicinity : Option String
  formatted_address : Option String
deriving DecidableEq

/-- A basic business record as accumulated by `get_places`. -/
structure BasicPlace where
  business_name : Option String
  place_id : String
  rating : Option Rat
  user_ratings_total : Option Int
  address : Option String
deriving DecidableEq

/-- One response of the nearby-search API for one request. -/
inductive PageResp where
  | fail (msg : String)
  | page (results : List RawPlace) (next_page_token : Option String)
deriving DecidableEq

/-- The `places` mapping: insertion-ordered, keyed by `place_id`. -/
abbrev PlaceMap := List (String × BasicPlace)

/-- Merging one page of results into the `places` mapping: entries with a
missing or empty `place_id` are skipped, and an id already present keeps its
first-seen metadata. -/
def insertPlaces (acc : PlaceMap) (results : List RawPlace) : PlaceMap :=
  results.foldl (fun m p =>
    match p.place_id with
    | none => m
    | some pid =>
      if pid = "" then m
      else if (m.lookup pid).isSome then m
      else m ++ [(pid, { business_name := p.name, place_id := pid,
                         rating := p.rating,
                         user_ratings_total := p.user_ratings_total,
                         address := match p.vicinity with
                           | some v => some v
                           | none => p.formatted_address })]) acc

/-- The pagination loop for one keyword.  Returns the updated mapping, the
number of delayed re-queries performed (each reissue with a token is
preceded by the fixed `PLACES_SLEEP` delay), and the unconsumed responses
(witnessing that the loop stopped). -/
def paginate : List PageResp → PlaceMap → PlaceMap × Nat × List PageResp
  | [], acc => (acc, 0, [])
  | PageResp.fail _ :: rest, acc => (acc, 0, rest)
  | PageResp.page results tok :: rest, acc =>
    let acc2 := insertPlaces acc results
    match tok with
    | none => (acc2, 0, rest)
    | some _ =>
      let r := paginate rest acc2
      (r.1, r.2.1 + 1, r.2.2)

/-- `get_places`: one pagination chain per keyword, accumulating into the
shared `places` mapping. -/
def get_places (oracles : List (List PageResp)) (acc : PlaceMap) : PlaceMap :=
  match oracles with
  | [] => acc
  | o :: os => get_places os (paginate o acc).1

/-- C7: the pagination loop stops at the first token-free response or at the
first failure — a failure ends only that keyword's chain, with the remaining
keywords processed unchanged — each reissue with a token is preceded by the
fixed delay, and on a token sequence `[T1, T2, none]` exactly two delayed
re-queries occur before it stops, consuming nothing further. -/
theorem paginate_spec :
    (∀ rs1 rs2 rs3 t1 t2 extra acc,
      paginate (PageResp.page rs1 (some t1) :: PageResp.page rs2 (some t2)
          :: PageResp.page rs3 none :: extra) acc
        = (insertPlaces (insertPlaces (insertPlaces acc rs1) rs2) rs3, 2, extra))
    ∧ (∀ msg rest acc, paginate (PageResp.fail msg :: rest) acc = (acc, 0, rest))
    ∧ (∀ rs rest acc, paginate (PageResp.page rs none :: rest) acc
        = (insertPlaces acc rs, 0, rest))
    ∧ (∀ msg rest os acc,
        get_places ((PageResp.fail msg :: rest) :: os) acc = get_places os acc) := by
  refine ⟨fun rs1 rs2 rs3 t1 t2 extra acc => rfl,
          fun msg rest acc => rfl,
          fun rs rest acc => rfl,
          fun msg rest os acc => rfl⟩

/-! ### Duplicate Filter (`lead_filter.py`)

`is_new_place` runs under a single mutual-exclusion lock, so its effect on
the shared set is that of one atomic check-and-insert; it is embedded as a
pure state transformer on the identifier set.  `load_existing_place_ids`
reads the persisted CSV: absent file gives the empty set, otherwise the
`place_id` cell of every row that has one is collected. -/

/-- `is_new_place(place_id, existing_ids)`: returns whether the id was
absent, together with the updated set (the `existing_ids.add(place_id)`
performed when it was absent). -/
def is_new_place (place_id : String) (existing_ids : Finset String) :
    Bool × Finset String :=
  if place_id ∈ existing_ids then (false, existing_ids)
  else (true, insert place_id existing_ids)

/-- C9: the claim operation returns `true` exactly when the id was absent;
it inserts the id in that case and leaves the set unchanged (returning
`false`) when the id was already present. -/
theorem is_new_place_spec (place_id : String) (existing_ids : Finset String) :
    ((is_new_place place_id existing_ids).1 = true ↔ place_id ∉ existing_ids)
    ∧ (place_id ∉ existing_ids →
        (is_new_place place_id existing_ids).2 = insert place_id existing_ids)
    ∧ (place_id ∈ existing_ids →
        (is_new_place place_id existing_ids).2 = existing_ids) := by
  by_cases h : place_id ∈ existing_ids
  · refine ⟨?_, fun hn => absurd h hn, fun _ => ?_⟩
    · simp [is_new_place, h]
    · simp [is_new_place, h]
  · refine ⟨?_, fun _ => ?_, fun hm => absurd hm h⟩
    · simp [is_new_place, h]
    · simp [is_new_place, h]

/-- C9 witness: the claim contract evaluated on the id `p1` against the
empty set (absent: inserts) and against the singleton containing it
(present: unchanged). -/
theorem is_new_place_spec_witness :
    ((is_new_place "p1" ∅).1 = true ↔ "p1" ∉ (∅ : Finset String))
    ∧ (is_new_place "p1" ∅).2 = insert "p1" (∅ : Finset String)
    ∧ (is_new_place "p1" {"p1"}).2 = ({"p1"} : Finset String) :=
  ⟨(is_new_place_spec "p1" ∅).1,
   (is_new_place_spec "p1" ∅).2.1 (by decide),
   (is_new_place_spec "p1" {"p1"}).2.2 (by decide)⟩

/-! ### Enrichment Orchestrator (`process_businesses`, leadgen.py lines 233-310)

The sequential detail-fetch phase merges `get_place_details` results into
each entry; it is network-bound, so the embedding takes the already-enriched
entries as input.  The concurrent analysis phase is an oracle
`analyses : String → WebsiteAnalysis` from `place_id` to the analysis
result (entries without a website receive `defaultAnalysis`). -/

/-- An enriched business entry (the `entry` dict of `process_businesses`). -/
structure Business where
  business_name : Option String
  place_id : Option String
  address : Option String
  phone_google : Option String
  website : Option String
  rating : Option Rat
  user_ratings_total : Option Int
deriving DecidableEq

/-- Python truthiness of an optional string: `None` and `""` are falsy. -/
def blankOpt : Option String → Bool
  | none => true
  | some s => s = ""

/-- The in-batch dedup key `e.get("website") or e.get("business_name")`:
the website when it is truthy, otherwise the business name (whatever it is,
including `None` or the empty string). -/
def dedupKey (b : Business) : Option String :=
  match b.website with
  | some w => if w = "" then b.business_name else some w
  | none => b.business_name

/-- The `unique` dict loop: first occurrence of each key wins, insertion
order is preserved. -/
def dedupAux : List Business → List (Option String) → List Business
  | [], _ => []
  | b :: bs, seen =>
    let k := dedupKey b
    if k ∈ seen then dedupAux bs seen
    else b :: dedupAux bs (k :: seen)

/-- In-batch deduplication by `(website ?? business_name)`. -/
def dedup_businesses (bs : List Business) : List Business :=
  dedupAux bs []

theorem dedupAux_filter_nil (P : Business → Bool) (k : Option String)
    (hPk : ∀ b, P b = true → dedupKey b = k) :
    ∀ bs seen, k ∈ seen → (dedupAux bs seen).filter P = [] := by
  intro bs
  induction bs with
  | nil => intro seen _ ; rfl
  | cons b bs ih =>
    intro seen hk
    by_cases hmem : dedupKey b ∈ seen
    · simp only [dedupAux, if_pos hmem]
      exact ih seen hk
    · simp only [dedupAux, if_neg hmem]
      have hPb : P b = false := by
        cases hPb : P b
        · rfl
        · exact absurd (hPk b hPb ▸ hk) hmem
      simp only [List.filter, hPb]
      exact ih (dedupKey b :: seen) (List.mem_cons_of_mem _ hk)

theorem dedupAux_filter_le_one (P : Business → Bool) (k : Option String)
    (hPk : ∀ b, P b = true → dedupKey b = k) :
    ∀ bs seen, ((dedupAux bs seen).filter P).length ≤ 1 := by
  intro bs
  induction bs with
  | nil => intro seen ; simp [dedupAux]
  | cons b bs ih =>
    intro seen
    by_cases hmem : dedupKey b ∈ seen
    · simp only [dedupAux, if_pos hmem]
      exact ih seen
    · simp only [dedupAux, if_neg hmem]
      cases hPb : P b
      · simp only [List.filter, hPb]
        exact ih (dedupKey b :: seen)
      · simp only [List.filter, hPb]
        have : (dedupAux bs (dedupKey b :: seen)).filter P = [] := by
          refine dedupAux_filter_nil P k hPk bs (dedupKey b :: seen) ?_
          rw [← hPk b hPb]
          exact List.mem_cons_self _ _
        simp [this]

/-- Entries with both `website` and `business_name` absent or empty. -/
def bothBlank (b : Business) : Bool :=
  blankOpt b.website && blankOpt b.business_name

/-- Entries whose website is blank and whose name is `None`. -/
def blankSiteNoneName (b : Business) : Bool :=
  blankOpt b.website && b.business_name.isNone

/-- Entries whose website is blank and whose name is the empty string. -/
def blankSiteEmptyName (b : Business) : Bool :=
  blankOpt b.website && (b.business_name == some "")

/-- An entry with every field `None`. -/
def bizNone : Business :=
  { business_name := none, place_id := none, address := none,
    phone_google := none, website := none, rating := none,
    user_ratings_total := none }

/-- An entry whose website and name are the empty string. -/
def bizEmpty : Business :=
  { bizNone with website := some "", business_name := some "" }

/-- C10 counterexample: a batch of two entries that both have blank website
and blank business name, yet both survive deduplication — `None` and the
empty string are distinct dedup keys, so such entries do not all share one
key. -/
theorem dedup_blank_two_survivors :
    ((dedup_businesses [bizNone, bizEmpty]).filter bothBlank).length = 2 := by
  decide

/-- C10 (amended): an empty-string website falls back to the business name
exactly like an absent one; among entries whose website is blank and whose
business name is `None` at most one survives deduplication, and likewise
among entries whose website is blank and whose business name is the empty
string — but those two groups carry the distinct keys `None` and `""`, so
one entry of each may survive together. -/
theorem dedup_blank_spec :
    (∀ b : Business, b.website = some "" → dedupKey b = b.business_name)
    ∧ (∀ bs, ((dedup_businesses bs).filter blankSiteNoneName).length ≤ 1)
    ∧ (∀ bs, ((dedup_businesses bs).filter blankSiteEmptyName).length ≤ 1) := by
  refine ⟨?_, ?_, ?_⟩
  · intro b hw
    simp [dedupKey, hw]
  · intro bs
    refine dedupAux_filter_le_one blankSiteNoneName none ?_ bs []
    intro b hb
    simp only [blankSiteNoneName, Bool.and_eq_true, Option.isNone_iff_eq_none] at hb
    obtain ⟨hw, hn⟩ := hb
    rcases hws : b.website with _ | w
    · simp [dedupKey, hws, hn]
    · rw [hws] at hw
      simp only [blankOpt, decide_eq_true_eq] at hw
      simp [dedupKey, hws, hw, hn]
  · intro bs
    refine dedupAux_filter_le_one blankSiteEmptyName (some "") ?_ bs []
    intro b hb
    simp only [blankSiteEmptyName, Bool.and_eq_true, beq_iff_eq] at hb
    obtain ⟨hw, hn⟩ := hb
    rcases hws : b.website with _ | w
    · simp [dedupKey, hws, hn]
    · rw [hws] at hw
      simp only [blankOpt, decide_eq_true_eq] at hw
      simp [dedupKey, hws, hw, hn]

/-- C10 witness: the fallback conjunct evaluated at the concrete entry whose
website is the empty string. -/
theorem dedup_blank_spec_witness :
    dedupKey bizEmpty = bizEmpty.business_name :=
  dedup_blank_spec.1 bizEmpty rfl

/-! ### Row assembly and the Result Store (leadgen.py lines 284-334; load in
lead_filter.py lines 14-29)

A `LeadRow` carries exactly the keys of the `row` dict built in
`process_businesses` — note that `place_id` is not among them.  A persisted
CSV row is an association list from column name to cell text (the
`csv.DictReader` view); cell rendering abstracts pandas' value formatting,
which no claim depends on. -/

/-- The final output record, with exactly the fields of the Python `row`
dict (leadgen.py lines 294-307). -/
structure LeadRow where
  business_name : Option String
  address : Option String
  phone_google : Option String
  phone_website : Option String
  email : Option String
  website : Option String
  rating : Option Rat
  user_ratings_total : Option Int
  https : Bool
  has_viewport : Bool
  html_length : Int
  lead_score : Int
deriving DecidableEq

/-- `";".join(xs)`. -/
def joinSemi (xs : List String) : String :=
  String.intercalate ";" xs

/-- Row construction for one business and its analysis, including the
`lead_score` computation (`has_website = bool(b.get("website"))`, the
analysis fields with their `dict.get` defaults). -/
def mkRow (b : Business) (a : WebsiteAnalysis) : LeadRow :=
  { business_name := b.business_name,
    address := b.address,
    phone_google := b.phone_google,
    phone_website := if a.phones_website.isEmpty then none
                     else some (joinSemi a.phones_website),
    email := if a.emails.isEmpty then none else some (joinSemi a.emails),
    website := b.website,
    rating := b.rating,
    user_ratings_total := b.user_ratings_total,
    https := a.https,
    has_viewport := a.has_viewport,
    html_length := a.html_length,
    lead_score := score_lead (!blankOpt b.website) a.https a.has_viewport
      (some a.html_length) a.emails a.has_cta b.rating b.user_ratings_total }

/-- The final loop of `process_businesses`: skip entries with a falsy
`place_id`, claim each remaining id on the shared set via `is_new_place`,
and build a row for each successful claim. -/
def build_rows : List Business → (String → WebsiteAnalysis) → Finset String →
    List LeadRow × Finset String
  | [], _, existing => ([], existing)
  | b :: bs, analyses, existing =>
    match b.place_id with
    | none => build_rows bs analyses existing
    | some pid =>
      if pid = "" then build_rows bs analyses existing
      else
        let claim := is_new_place pid existing
        if claim.1 then
          let rest := build_rows bs analyses claim.2
          (mkRow b (analyses pid) :: rest.1, rest.2)
        else build_rows bs analyses claim.2

/-- `process_businesses` from the in-batch dedup step onward (the sequential
detail-fetch phase is the network oracle that produced the enriched
entries). -/
def process_businesses (enriched : List Business)
    (analyses : String → WebsiteAnalysis) (existing : Finset String) :
    List LeadRow × Finset String :=
  build_rows (dedup_businesses enriched) analyses existing

/-- A persisted CSV row: column name to cell text, as `csv.DictReader`
presents it. -/
abbrev CsvRow := List (String × String)

def optCell : Option String → String
  | none => ""
  | some s => s

def boolCell (b : Bool) : String :=
  if b then "True" else "False"

def ratCell : Option Rat → String
  | none => ""
  | some q => toString q.num ++ "/" ++ toString q.den

def intCell : Option Int → String
  | none => ""
  | some n => toString n

/-- The CSV serialization of one output row: exactly the `row` dict's keys
become columns (cell text abstracts pandas' formatting). -/
def rowToCsv (r : LeadRow) : CsvRow :=
  [("business_name", optCell r.business_name),
   ("address", optCell r.address),
   ("phone_google", optCell r.phone_google),
   ("phone_website", optCell r.phone_website),
   ("email", optCell r.email),
   ("website", optCell r.website),
   ("rating", ratCell r.rating),
   ("user_ratings_total", intCell r.user_ratings_total),
   ("https", boolCell r.https),
   ("has_viewport", boolCell r.has_viewport),
   ("html_length", toString r.html_length),
   ("lead_score", toString r.lead_score)]

/-- `load_existing_place_ids(csv_path)`: `none` models an absent file; an
existing file is its parsed rows, and each row contributes its `place_id`
cell when that column is present. -/
def load_existing_place_ids (store : Option (List CsvRow)) : Finset String :=
  match store with
  | none => ∅
  | some rows =>
    rows.foldl (fun s row =>
      match row.lookup "place_id" with
      | some v => insert v s
      | none => s) ∅

/-- The persisted store as `save_results` finds it: absent, unreadable
(`pd.read_csv` raised, caught, prior treated as empty), or readable rows. -/
inductive StoreState where
  | missing
  | unreadable
  | rows (rs : List LeadRow)

/-- Insertion step of the descending sort by `lead_score`. -/
def insertByScoreDesc (r : LeadRow) : List LeadRow → List LeadRow
  | [] => [r]
  | x :: xs => if r.lead_score > x.lead_score then r :: x :: xs
               else x :: insertByScoreDesc r xs

/-- `sort_values(by="lead_score", ascending=False)`. -/
def sortByScoreDesc (rs : List LeadRow) : List LeadRow :=
  rs.foldl (fun acc r => insertByScoreDesc r acc) []

/-- `drop_duplicates(subset=["website", "business_name"], keep="first")`. -/
def dedupRowsAux : List LeadRow → List (Option String × Option String) →
    List LeadRow
  | [], _ => []
  | r :: rs, seen =>
    let k := (r.website, r.business_name)
    if k ∈ seen then dedupRowsAux rs seen
    else r :: dedupRowsAux rs (k :: seen)

/-- `save_results(rows, csv_path)`: with no readable, non-empty prior store
the new rows are sorted and written; otherwise old and new are concatenated,
deduplicated by `(website, business_name)` keeping the first occurrence, and
sorted descending by `lead_score`. -/
def save_results (newRows : List LeadRow) (st : StoreState) : List LeadRow :=
  match st with
  | StoreState.missing => sortByScoreDesc newRows
  | StoreState.unreadable => sortByScoreDesc newRows
  | StoreState.rows [] => sortByScoreDesc newRows
  | StoreState.rows (r :: rs) =>
    sortByScoreDesc (dedupRowsAux ((r :: rs) ++ newRows) [])

/-- One whole run: load the seed identifier set from the store, then build
the run's rows. -/
def run_pipeline (store : Option (List CsvRow)) (enriched : List Business)
    (analyses : String → WebsiteAnalysis) : List LeadRow :=
  (process_businesses enriched analyses (load_existing_place_ids store)).1

/-- The analysis oracle of a run in which nothing was fetched. -/
def defaultOracle : String → WebsiteAnalysis :=
  fun _ => defaultAnalysis

/-- A concrete candidate with `place_id` `p1` and no website. -/
def bizP1 : Business :=
  { business_name := some "Acme", place_id := some "p1", address := none,
    phone_google := none, website := none, rating := none,
    user_ratings_total := none }

/-- C8: a missing store loads as the empty seed set; a store whose rows lack
a `place_id` column (the parse of a corrupt file) also loads as the empty
set; and the Result Store's merge treats an unreadable prior file exactly
like an absent one — in every case without aborting. -/
theorem store_absence_not_fatal :
    load_existing_place_ids none = (∅ : Finset String)
    ∧ (∀ rows : List CsvRow, (∀ row ∈ rows, row.lookup "place_id" = none) →
        load_existing_place_ids (some rows) = ∅)
    ∧ (∀ newRows, save_results newRows StoreState.unreadable
        = save_results newRows StoreState.missing) := by
  refine ⟨rfl, ?_, fun _ => rfl⟩
  intro rows hrows
  simp only [load_existing_place_ids]
  induction rows with
  | nil => rfl
  | cons row rest ih =>
    have hrow := hrows row (List.mem_cons_self _ _)
    simp only [List.foldl_cons, hrow]
    exact ih (fun r hr => hrows r (List.mem_cons_of_mem _ hr))

/-- C8 witness: the empty-seed conjuncts evaluated at a concrete one-row
store without a `place_id` column and at a concrete row list. -/
theorem store_absence_not_fatal_witness :
    load_existing_place_ids (some [[("garbage", "x")]]) = (∅ : Finset String) :=
  store_absence_not_fatal.2.1 [[("garbage", "x")]] (by decide)

/-- C1 (code bug): the output rows carry no `place_id` column, so the seed
set loaded from a store written by a previous run is always empty and the
same `place_id` is re-emitted by a later run with overlapping input: with
candidate `p1` in both runs, run one emits one row, the store built from it
loads as the empty set, and run two emits a row for `p1` again. -/
theorem place_id_reemitted_across_runs :
    ((rowToCsv (mkRow bizP1 defaultAnalysis)).lookup "place_id" = none)
    ∧ (run_pipeline none [bizP1] defaultOracle).length = 1
    ∧ load_existing_place_ids
        (some ((save_results (run_pipeline none [bizP1] defaultOracle)
          StoreState.missing).map rowToCsv)) = (∅ : Finset String)
    ∧ (run_pipeline
        (some ((save_results (run_pipeline none [bizP1] defaultOracle)
          StoreState.missing).map rowToCsv)) [bizP1] defaultOracle).length = 1 := by
  refine ⟨rfl, rfl, ?_, ?_⟩ <;> decide

end Leadgen
